import Mathlib

/-!
Shallow embedding of the core of the `bank` repository: the `Transaction`
value object (src/bank/models/transaction.py), the `BankAccount` state
machine (src/bank/models/bank_account.py) and the transfer orchestrator
(src/bank/api/transactions.py `transfer`).

Modelling conventions:
* Python floats carrying money amounts are modelled as rationals (`ℚ`).
* Python's `None` for optional string fields is `Option String`.
* A Python method that can `return` a 3-tuple on some paths, a bare bool on
  others (`_process_fee`), or fall off the end returning `None`
  (`_process_blocked_account_transaction`, `_process_currency` when no
  branch fires) has result type `PyRet` with one constructor per shape.
* Mutation of `self` and of the passed-in transaction's `status` field is
  modelled by returning the updated account and transaction.
* `uuid.uuid4()` and `time.time()` are environment inputs: the generated
  identifier / timestamp is taken as an explicit argument of the
  constructor functions.
* Naming discrepancy in the repository: `transaction.py` declares the
  account-reference fields as `source_account_id` / `destination_account_id`,
  while `bank_account.py` and `api/transactions.py` uniformly read and
  construct them as `source_account_name` / `destination_account_name`.
  Both names denote the same pair of optional string references; the
  embedding uses the `_name` spelling (the one every call site uses) for
  that single pair of fields.
-/

namespace Bank

/-- `AccountType` from src/bank/models/enums.py. -/
inductive AccountType where
  | SAVINGS
  | CHECKING
  | CREDIT
  | LOAN
deriving DecidableEq, Repr

/-- `AccountStatus` from src/bank/models/enums.py. -/
inductive AccountStatus where
  | ACTIVE
  | CLOSED
  | FROZEN
  | PENDING
deriving DecidableEq, Repr

/-- `TransactionType` from src/bank/models/enums.py. -/
inductive TransactionType where
  | DEPOSIT
  | WITHDRAWAL
  | TRANSFER_IN
  | TRANSFER_OUT
  | FEE
  | INTEREST
deriving DecidableEq, Repr

/-- `TransactionStatus` from src/bank/models/enums.py. -/
inductive TransactionStatus where
  | PENDING
  | COMPLETED
  | FAILED
  | REVERSED
  | CANCELLED
deriving DecidableEq, Repr

/-- The string `value` of an `AccountType` enum member. -/
def AccountType.value : AccountType → String
  | .SAVINGS => "SAVINGS"
  | .CHECKING => "CHECKING"
  | .CREDIT => "CREDIT"
  | .LOAN => "LOAN"

/-- The string `value` of a `TransactionType` enum member. -/
def TransactionType.value : TransactionType → String
  | .DEPOSIT => "DEPOSIT"
  | .WITHDRAWAL => "WITHDRAWAL"
  | .TRANSFER_IN => "TRANSFER_IN"
  | .TRANSFER_OUT => "TRANSFER_OUT"
  | .FEE => "FEE"
  | .INTEREST => "INTEREST"

/-- The `Transaction` dataclass of src/bank/models/transaction.py.
`source_account_name` / `destination_account_name` are the optional
account references (see the file header for the `_id` / `_name` naming
discrepancy in the repository). -/
structure Transaction where
  type : TransactionType
  amount : ℚ
  currency : String
  source_account_name : Option String
  destination_account_name : Option String
  description : Option String
  transaction_id : String
  status : TransactionStatus
deriving DecidableEq, Repr

/-- `Transaction.__post_init__` as a fallible constructor: each `raise
ValueError` becomes `Except.error` with the message raised.  The freshly
generated `transaction_id` is the argument `tid`; the initial status is
`PENDING` (the dataclass default). -/
def mkTransaction (ty : TransactionType) (amount : ℚ) (currency : String)
    (source destination description : Option String) (tid : String) :
    Except String Transaction :=
  if amount ≤ 0 then
    .error "Transaction amount must be positive."
  else if (ty = .TRANSFER_OUT ∨ ty = .WITHDRAWAL) ∧ source = none then
    .error (ty.value ++ " must have a source_account_id.")
  else if (ty = .TRANSFER_IN ∨ ty = .DEPOSIT) ∧ destination = none then
    .error (ty.value ++ " must have a destination_account_id.")
  else if (ty = .TRANSFER_IN ∨ ty = .TRANSFER_OUT) ∧
      (source = none ∧ destination = none) then
    .error "Transfers must have both source and destination account IDs."
  else
    .ok { type := ty, amount := amount, currency := currency,
          source_account_name := source,
          destination_account_name := destination,
          description := description, transaction_id := tid,
          status := TransactionStatus.PENDING }

/-- The `BankAccount` dataclass of src/bank/models/bank_account.py. -/
structure BankAccount where
  account_type : AccountType
  currency : String
  account_owner : String
  initial_deposit : ℚ
  account_id : String
  account_name : String
  balance : ℚ
  transaction_history : List Transaction
  created_at : ℚ
  status : AccountStatus
deriving DecidableEq, Repr

/-- `BLOCKED_ACCOUNT_STATUSES` from src/bank/models/bank_account.py. -/
def BLOCKED_ACCOUNT_STATUSES : List AccountStatus :=
  [AccountStatus.FROZEN, AccountStatus.CLOSED]

/-- The possible shapes of a value returned by the account's processing
methods: a `(bool, str, TransactionStatus)` tuple, a bare bool
(`_process_fee`'s own paths), or Python's implicit `None` when control
falls off the end of a method. -/
inductive PyRet where
  | triple (accepted : Bool) (message : String) (status : TransactionStatus)
  | bareBool (b : Bool)
  | pyNone
deriving DecidableEq, Repr

/-- Truthiness of the `accepted` component of a processing result: the
first tuple component, or the bare bool itself; `None` is falsy. -/
def PyRet.accepted : PyRet → Bool
  | .triple b _ _ => b
  | .bareBool b => b
  | .pyNone => false

/-- The message component of a processing result (`""` when absent). -/
def PyRet.message : PyRet → String
  | .triple _ m _ => m
  | _ => ""

/-- The result of one handler call: the updated account, the transaction
with its (possibly) updated `status` field, and the returned value. -/
abbrev HandlerResult := BankAccount × Transaction × PyRet

/-- `BankAccount._process_blocked_account_transaction`.  Note the Python
method falls through (returns `None`) when the status is neither FROZEN
nor CLOSED; that path is modelled by `PyRet.pyNone`. -/
def process_blocked_account_transaction (a : BankAccount) (t : Transaction) :
    HandlerResult :=
  if a.status = AccountStatus.FROZEN then
    (a, { t with status := TransactionStatus.FAILED },
      .triple false "Account is frozen" TransactionStatus.FAILED)
  else if a.status = AccountStatus.CLOSED then
    (a, { t with status := TransactionStatus.FAILED },
      .triple false "Account is closed" TransactionStatus.FAILED)
  else
    (a, t, .pyNone)

/-- `BankAccount._process_currency`.  Falls through returning `None` when
the account is not blocked and the currencies agree. -/
def process_currency (a : BankAccount) (t : Transaction) : HandlerResult :=
  if a.status ∈ BLOCKED_ACCOUNT_STATUSES then
    process_blocked_account_transaction a t
  else if t.currency ≠ a.currency then
    (a, { t with status := TransactionStatus.FAILED },
      .triple false "Currency mismatch" TransactionStatus.FAILED)
  else
    (a, t, .pyNone)

/-- `BankAccount._process_deposit` (also used for INTEREST). -/
def process_deposit (a : BankAccount) (t : Transaction) : HandlerResult :=
  if a.status ∈ BLOCKED_ACCOUNT_STATUSES then
    process_blocked_account_transaction a t
  else if t.destination_account_name ≠ some a.account_name then
    (a, { t with status := TransactionStatus.FAILED },
      .triple false "Destination account ID mismatch" TransactionStatus.FAILED)
  else if t.amount ≤ 0 then
    (a, { t with status := TransactionStatus.FAILED },
      .triple false "Deposit amount must be positive and greater than 0"
        TransactionStatus.FAILED)
  else
    (if a.balance + t.amount < 0 ∧ a.status = AccountStatus.FROZEN then
       { a with balance := a.balance + t.amount,
                status := AccountStatus.ACTIVE }
     else { a with balance := a.balance + t.amount },
     { t with status := TransactionStatus.COMPLETED },
     .triple true "Deposit successful" TransactionStatus.COMPLETED)

/-- `BankAccount._process_withdrawl` (the method name's spelling is the
source's). -/
def process_withdrawl (a : BankAccount) (t : Transaction) : HandlerResult :=
  if a.status ∈ BLOCKED_ACCOUNT_STATUSES then
    process_blocked_account_transaction a t
  else if t.source_account_name ≠ some a.account_name then
    (a, { t with status := TransactionStatus.FAILED },
      .triple false "Source account ID mismatch" TransactionStatus.FAILED)
  else if t.amount ≤ 0 then
    (a, { t with status := TransactionStatus.FAILED },
      .triple false "Withdrawal amount must be positive and greater than 0"
        TransactionStatus.FAILED)
  else if a.balance ≥ t.amount then
    ({ a with balance := a.balance - t.amount },
      { t with status := TransactionStatus.COMPLETED },
      .triple true "Withdrawal successful" TransactionStatus.COMPLETED)
  else
    (a, { t with status := TransactionStatus.FAILED },
      .triple false "Insufficient funds" TransactionStatus.FAILED)

/-- `BankAccount._process_transfer_in`. -/
def process_transfer_in (a : BankAccount) (t : Transaction) : HandlerResult :=
  if a.status ∈ BLOCKED_ACCOUNT_STATUSES then
    process_blocked_account_transaction a t
  else if t.destination_account_name ≠ some a.account_name then
    (a, { t with status := TransactionStatus.FAILED },
      .triple false "Destination account ID mismatch" TransactionStatus.FAILED)
  else if t.amount ≤ 0 then
    (a, { t with status := TransactionStatus.FAILED },
      .triple false "Transfer_IN amount must be positive and greater than 0"
        TransactionStatus.FAILED)
  else
    (if a.balance + t.amount < 0 ∧ a.status = AccountStatus.FROZEN then
       { a with balance := a.balance + t.amount,
                status := AccountStatus.ACTIVE }
     else { a with balance := a.balance + t.amount },
     { t with status := TransactionStatus.COMPLETED },
     .triple true "Transfer_IN successful" TransactionStatus.COMPLETED)

/-- `BankAccount._process_transfer_out`. -/
def process_transfer_out (a : BankAccount) (t : Transaction) : HandlerResult :=
  if a.status ∈ BLOCKED_ACCOUNT_STATUSES then
    process_blocked_account_transaction a t
  else if t.source_account_name ≠ some a.account_name then
    (a, { t with status := TransactionStatus.FAILED },
      .triple false "Source account ID mismatch" TransactionStatus.FAILED)
  else if t.destination_account_name = none then
    (a, { t with status := TransactionStatus.FAILED },
      .triple false "Destination account ID is None" TransactionStatus.FAILED)
  else if t.amount ≤ 0 then
    (a, { t with status := TransactionStatus.FAILED },
      .triple false "Transfer_OUT amount must be positive and greater than 0"
        TransactionStatus.FAILED)
  else if a.balance ≥ t.amount then
    ({ a with balance := a.balance - t.amount },
      { t with status := TransactionStatus.COMPLETED },
      .triple true "Transfer_OUT successful" TransactionStatus.COMPLETED)
  else
    (a, { t with status := TransactionStatus.FAILED },
      .triple false "Insufficient funds" TransactionStatus.FAILED)

/-- `BankAccount._process_fee`.  On its own three paths the Python method
returns a bare bool — `return False` (source-name mismatch), `return True`
(fee deducted), `return False` (insufficient funds, account frozen) —
despite its declared return type `Tuple[bool, str, TransactionStatus]`. -/
def process_fee (a : BankAccount) (t : Transaction) : HandlerResult :=
  if a.status ∈ BLOCKED_ACCOUNT_STATUSES then
    process_blocked_account_transaction a t
  else if t.source_account_name ≠ some a.account_name then
    (a, { t with status := TransactionStatus.FAILED }, .bareBool false)
  else if a.balance ≥ t.amount then
    ({ a with balance := a.balance - t.amount },
      { t with status := TransactionStatus.COMPLETED }, .bareBool true)
  else
    ({ a with status := AccountStatus.FROZEN },
      { t with status := TransactionStatus.FAILED }, .bareBool false)

/-- `BankAccount.process_transaction`.  In the source the transaction
object is appended to `transaction_history` first and its `status` field
is mutated afterwards; since it is the same object, the history holds the
transaction with its final status, which is what the embedding appends.
The six `TransactionType` members are all dispatched, so the trailing
`else: return False, "Unhandled transaction type", ...` of the source is
unreachable for a well-typed transaction and has no corresponding branch
in the exhaustive match. -/
def process_transaction (a : BankAccount) (t : Transaction) : HandlerResult :=
  let r :=
    if t.currency ≠ a.currency then process_currency a t
    else match t.type with
      | .DEPOSIT => process_deposit a t
      | .WITHDRAWAL => process_withdrawl a t
      | .TRANSFER_IN => process_transfer_in a t
      | .TRANSFER_OUT => process_transfer_out a t
      | .FEE => process_fee a t
      | .INTEREST => process_deposit a t
  ({ r.1 with transaction_history := r.1.transaction_history ++ [r.2.1] },
    r.2.1, r.2.2)

/-- Python `str.lower`, character by character.  (Modelled on the string's
character list; byte-position-based `String.map` does not reduce inside
the kernel.) -/
def strLower (s : String) : String := ⟨s.data.map Char.toLower⟩

/-- Python slicing `s[:n]`. -/
def strTake (s : String) (n : Nat) : String := ⟨s.data.take n⟩

/-- The derived display name `f"{self.account_type.value.lower()}_{self.account_id[:5]}"`. -/
def accountNameOf (ty : AccountType) (account_id : String) : String :=
  strLower ty.value ++ "_" ++ strTake account_id 5

/-- `BankAccount.__post_init__` as a fallible constructor (`mk` +
`__post_init__`).  `account_id` and `created_at` are the generated
defaults taken as arguments; `init_txn_id` is the id generated for the
initial-deposit transaction when one is processed. -/
def mkBankAccount (ty : AccountType) (currency account_owner : String)
    (initial_deposit : ℚ) (account_id : String) (created_at : ℚ)
    (init_txn_id : String) : Except String BankAccount :=
  if account_owner = "" then
    .error "An account must have at an owner."
  else if initial_deposit < 0 then
    .error "Initial deposit cannot be negative."
  else
    let name := accountNameOf ty account_id
    let a : BankAccount :=
      { account_type := ty, currency := currency,
        account_owner := account_owner, initial_deposit := initial_deposit,
        account_id := account_id, account_name := name, balance := 0,
        transaction_history := [], created_at := created_at,
        status := AccountStatus.ACTIVE }
    if initial_deposit > 0 then
      let t : Transaction :=
        { type := TransactionType.DEPOSIT, amount := initial_deposit,
          currency := currency, source_account_name := none,
          destination_account_name := some name,
          description := some "Initial deposit", transaction_id := init_txn_id,
          status := TransactionStatus.PENDING }
      .ok (process_transaction a t).1
    else
      .ok a

/-- Folding a sequence of `process_transaction` calls over an account. -/
def processAll (a : BankAccount) (ts : List Transaction) : BankAccount :=
  ts.foldl (fun acc t => (process_transaction acc t).1) a

/-! ### Concrete inputs used by witnesses and counterexamples -/

/-- An ACTIVE checking account in USD with balance 500. -/
def wAcct : BankAccount :=
  { account_type := AccountType.CHECKING, currency := "USD",
    account_owner := "john.doe", initial_deposit := 0,
    account_id := "abc123", account_name := "checking_abc12", balance := 500,
    transaction_history := [], created_at := 0,
    status := AccountStatus.ACTIVE }

/-- The same account, FROZEN. -/
def wFrozen : BankAccount := { wAcct with status := AccountStatus.FROZEN }

/-- The same account, FROZEN with a negative balance. -/
def wFrozenNeg : BankAccount :=
  { wAcct with balance := -50, status := AccountStatus.FROZEN }

/-- The same account, PENDING. -/
def wPending : BankAccount := { wAcct with status := AccountStatus.PENDING }

/-- A USD deposit of 100 into `wAcct`. -/
def wDepUSD : Transaction :=
  { type := TransactionType.DEPOSIT, amount := 100, currency := "USD",
    source_account_name := none,
    destination_account_name := some "checking_abc12",
    description := some "deposit", transaction_id := "txn-dep-1",
    status := TransactionStatus.PENDING }

/-- A EUR deposit of 100 aimed at the USD account `wAcct`. -/
def wDepEUR : Transaction := { wDepUSD with currency := "EUR" }

/-- A USD fee of 10 charged to `wAcct` (covered by the balance). -/
def wFee : Transaction :=
  { type := TransactionType.FEE, amount := 10, currency := "USD",
    source_account_name := some "checking_abc12",
    destination_account_name := none, description := none,
    transaction_id := "txn-fee-1", status := TransactionStatus.PENDING }

/-- A USD fee of 1000 charged to `wAcct` (exceeds the balance of 500). -/
def wFeeBig : Transaction := { wFee with amount := 1000 }

/-- A USD fee whose source reference names a different account. -/
def wFeeMismatch : Transaction :=
  { wFee with source_account_name := some "savings_zzzzz" }

/-! ### The balance/history accounting invariant (C1) -/

/-- The contribution of a history entry to the credit side: its amount if
it is COMPLETED and of a credit type (DEPOSIT, TRANSFER_IN, INTEREST),
else 0. -/
def creditAmount (t : Transaction) : ℚ :=
  if t.status = TransactionStatus.COMPLETED ∧
      (t.type = TransactionType.DEPOSIT ∨
        t.type = TransactionType.TRANSFER_IN ∨
        t.type = TransactionType.INTEREST) then
    t.amount
  else 0

/-- The contribution of a history entry to the debit side: its amount if
it is COMPLETED and of a debit type (WITHDRAWAL, TRANSFER_OUT, FEE),
else 0. -/
def debitAmount (t : Transaction) : ℚ :=
  if t.status = TransactionStatus.COMPLETED ∧
      (t.type = TransactionType.WITHDRAWAL ∨
        t.type = TransactionType.TRANSFER_OUT ∨
        t.type = TransactionType.FEE) then
    t.amount
  else 0

/-- Sum of amounts of COMPLETED credit-type transactions in a history. -/
def creditSum (l : List Transaction) : ℚ := (l.map creditAmount).sum

/-- Sum of amounts of COMPLETED debit-type transactions in a history. -/
def debitSum (l : List Transaction) : ℚ := (l.map debitAmount).sum

/-- The accounting invariant of the claim: the balance is the completed
credit total minus the completed debit total of the recorded history. -/
def balanceInvariant (a : BankAccount) : Prop :=
  a.balance = creditSum a.transaction_history - debitSum a.transaction_history

/-- The pre-`__post_init__` state of a concrete account: balance 0, empty
history, ACTIVE. -/
def wInitBase : BankAccount :=
  { account_type := AccountType.CHECKING, currency := "USD",
    account_owner := "john.doe", initial_deposit := 500,
    account_id := "abc123",
    account_name := accountNameOf AccountType.CHECKING "abc123",
    balance := 0, transaction_history := [], created_at := 0,
    status := AccountStatus.ACTIVE }

/-- The initial-deposit transaction the constructor processes for
`wInitBase`. -/
def wInitTxn : Transaction :=
  { type := TransactionType.DEPOSIT, amount := 500, currency := "USD",
    source_account_name := none,
    destination_account_name :=
      some (accountNameOf AccountType.CHECKING "abc123"),
    description := some "Initial deposit", transaction_id := "init1",
    status := TransactionStatus.PENDING }

/-- The account produced by a concrete constructor call with an initial
deposit of 500 USD (balance 500, one COMPLETED DEPOSIT in history). -/
def wInitAcct : BankAccount := (process_transaction wInitBase wInitTxn).1

/-! ### The transfer orchestrator (src/bank/api/transactions.py `transfer`) -/

/-- Classification of the orchestrator's JSON response: 201 on full
success, 400 naming the failed leg otherwise. -/
inductive TransferOutcome where
  | created
  | inLegFailed (message_in : String)
  | outLegFailed (message_out : String)
deriving DecidableEq, Repr

/-- The description attached to the compensating TRANSFER_IN issued to
the source account when the IN leg fails. -/
def compensationNoteIn (description : String) : String :=
  "Transfer in to destination account due to failure in processing, transferring out. With description: "
    ++ description

/-- The description attached to the compensating TRANSFER_OUT issued to
the destination account when the OUT leg fails. -/
def compensationNoteOut (description : String) : String :=
  "Transfer out to source account due to failure in processing, transferring in. With description: "
    ++ description

/-- The core of the `transfer` endpoint, after the two accounts have been
looked up by name (the registry lookups, `TRANSACTIONS.extend` audit
registry, `save_data()` persistence and JSON serialization are the
surrounding plumbing; the two looked-up accounts are modelled as distinct
states).  A `ValueError` from a `Transaction` constructor propagates as
`Except.error` (the endpoint's 400 handler).  The ids generated for the
OUT, IN and compensating transactions are the arguments `outId`, `inId`,
`compId`.  Mirrors the source order: build both transactions, process OUT
against the source then IN against the destination, then compensate —
first the failed IN leg (a TRANSFER_IN back to the source account), else
a failed OUT leg (a TRANSFER_OUT on the destination account). -/
def transfer (src dst : BankAccount) (amount : ℚ)
    (currency description outId inId compId : String) :
    Except String (BankAccount × BankAccount × TransferOutcome) := do
  let out_transaction ← mkTransaction TransactionType.TRANSFER_OUT amount
    currency (some src.account_name) (some dst.account_name)
    (some description) outId
  let in_transaction ← mkTransaction TransactionType.TRANSFER_IN amount
    currency (some src.account_name) (some dst.account_name)
    (some description) inId
  let rOut := process_transaction src out_transaction
  let rIn := process_transaction dst in_transaction
  if rIn.2.2.accepted = false then do
    let comp ← mkTransaction TransactionType.TRANSFER_IN amount currency
      (some src.account_name) (some src.account_name)
      (some (compensationNoteIn description)) compId
    pure ((process_transaction rOut.1 comp).1, rIn.1,
      TransferOutcome.inLegFailed rIn.2.2.message)
  else if rOut.2.2.accepted = false then do
    let comp ← mkTransaction TransactionType.TRANSFER_OUT amount currency
      (some dst.account_name) (some dst.account_name)
      (some (compensationNoteOut description)) compId
    pure (rOut.1, (process_transaction rIn.1 comp).1,
      TransferOutcome.outLegFailed rOut.2.2.message)
  else
    pure (rOut.1, rIn.1, TransferOutcome.created)

/-- The TRANSFER_OUT transaction the orchestrator builds. -/
def outTxnOf (src dst : BankAccount) (amount : ℚ)
    (currency description outId : String) : Transaction :=
  { type := TransactionType.TRANSFER_OUT, amount := amount,
    currency := currency, source_account_name := some src.account_name,
    destination_account_name := some dst.account_name,
    description := some description, transaction_id := outId,
    status := TransactionStatus.PENDING }

/-- The TRANSFER_IN transaction the orchestrator builds. -/
def inTxnOf (src dst : BankAccount) (amount : ℚ)
    (currency description inId : String) : Transaction :=
  { type := TransactionType.TRANSFER_IN, amount := amount,
    currency := currency, source_account_name := some src.account_name,
    destination_account_name := some dst.account_name,
    description := some description, transaction_id := inId,
    status := TransactionStatus.PENDING }

/-- The compensating TRANSFER_IN the orchestrator issues to the source
account when the IN leg fails. -/
def compInTxnOf (src : BankAccount) (amount : ℚ)
    (currency description compId : String) : Transaction :=
  { type := TransactionType.TRANSFER_IN, amount := amount,
    currency := currency, source_account_name := some src.account_name,
    destination_account_name := some src.account_name,
    description := some (compensationNoteIn description),
    transaction_id := compId, status := TransactionStatus.PENDING }

/-- An EUR savings account used as the transfer destination in the C9
witness: the USD transfer's IN leg fails on it with a currency
mismatch. -/
def wAcctEUR : BankAccount :=
  { account_type := AccountType.SAVINGS, currency := "EUR",
    account_owner := "jane.doe", initial_deposit := 0,
    account_id := "def456", account_name := "savings_def45", balance := 0,
    transaction_history := [], created_at := 0,
    status := AccountStatus.ACTIVE }

/-! ### Structural lemmas about `process_transaction` -/

/-- An account's status is blocked iff it is FROZEN or CLOSED. -/
lemma mem_blocked_iff (s : AccountStatus) :
    s ∈ BLOCKED_ACCOUNT_STATUSES ↔
      s = AccountStatus.FROZEN ∨ s = AccountStatus.CLOSED := by
  simp [BLOCKED_ACCOUNT_STATUSES]

/-- `process_transaction` appends exactly the finalized transaction to the
history and changes nothing else about the history. -/
lemma process_transaction_history_eq (a : BankAccount) (t : Transaction) :
    (process_transaction a t).1.transaction_history =
      a.transaction_history ++ [(process_transaction a t).2.1] := by
  obtain ⟨ty, amt, cur, src, dst, desc, tid, st⟩ := t
  cases ty <;> by_cases hc : cur = a.currency <;>
    simp [process_transaction, process_currency, process_deposit,
      process_withdrawl, process_transfer_in, process_transfer_out,
      process_fee, process_blocked_account_transaction, hc] <;>
    split_ifs <;> simp_all [BLOCKED_ACCOUNT_STATUSES]

/-- The transaction returned by `process_transaction` differs from the
input only in its `status` field. -/
lemma process_transaction_txn_eq (a : BankAccount) (t : Transaction) :
    (process_transaction a t).2.1 =
      { t with status := (process_transaction a t).2.1.status } := by
  obtain ⟨ty, amt, cur, src, dst, desc, tid, st⟩ := t
  cases ty <;> by_cases hc : cur = a.currency <;>
    simp [process_transaction, process_currency, process_deposit,
      process_withdrawl, process_transfer_in, process_transfer_out,
      process_fee, process_blocked_account_transaction, hc] <;>
    split_ifs <;> simp_all [BLOCKED_ACCOUNT_STATUSES]

/-- The status `process_transaction` leaves on the transaction is terminal:
COMPLETED or FAILED. -/
lemma process_transaction_status_terminal (a : BankAccount) (t : Transaction) :
    (process_transaction a t).2.1.status = TransactionStatus.COMPLETED ∨
      (process_transaction a t).2.1.status = TransactionStatus.FAILED := by
  obtain ⟨ty, amt, cur, src, dst, desc, tid, st⟩ := t
  cases ty <;> by_cases hc : cur = a.currency <;>
    simp [process_transaction, process_currency, process_deposit,
      process_withdrawl, process_transfer_in, process_transfer_out,
      process_fee, process_blocked_account_transaction,
      BLOCKED_ACCOUNT_STATUSES, hc] <;>
    split_ifs <;> simp_all

/-! ### Claim theorems -/

/-- C3: for every account whose status is FROZEN or CLOSED and every
transaction of any type, `process_transaction` returns accepted=false with
message "Account is frozen" (when FROZEN) or "Account is closed" (when
CLOSED), marks the transaction FAILED, and leaves the balance (and status)
unchanged. -/
theorem blocked_account_rejects_all (a : BankAccount) (t : Transaction)
    (h : a.status = AccountStatus.FROZEN ∨ a.status = AccountStatus.CLOSED) :
    (process_transaction a t).2.2 =
      PyRet.triple false
        (if a.status = AccountStatus.FROZEN then "Account is frozen"
         else "Account is closed") TransactionStatus.FAILED ∧
    (process_transaction a t).2.1.status = TransactionStatus.FAILED ∧
    (process_transaction a t).1.balance = a.balance ∧
    (process_transaction a t).1.status = a.status := by
  rcases h with h | h <;>
    cases htype : t.type <;> by_cases hc : t.currency = a.currency <;>
      simp [process_transaction, process_currency, process_deposit,
        process_withdrawl, process_transfer_in, process_transfer_out,
        process_fee, process_blocked_account_transaction,
        BLOCKED_ACCOUNT_STATUSES, htype, hc, h]

/-- Witness for C3: the frozen account `wFrozen` rejects the matching-
currency deposit `wDepUSD` with "Account is frozen". -/
theorem blocked_account_rejects_all_witness :
    (wFrozen.status = AccountStatus.FROZEN ∨
      wFrozen.status = AccountStatus.CLOSED) ∧
    ((process_transaction wFrozen wDepUSD).2.2 =
      PyRet.triple false
        (if wFrozen.status = AccountStatus.FROZEN then "Account is frozen"
         else "Account is closed") TransactionStatus.FAILED ∧
    (process_transaction wFrozen wDepUSD).2.1.status =
      TransactionStatus.FAILED ∧
    (process_transaction wFrozen wDepUSD).1.balance = wFrozen.balance ∧
    (process_transaction wFrozen wDepUSD).1.status = wFrozen.status) :=
  ⟨Or.inl rfl, blocked_account_rejects_all wFrozen wDepUSD (Or.inl rfl)⟩

/-- C4 counterexample: on a FROZEN account, a mismatched-currency
transaction is answered with "Account is frozen", not "Currency mismatch":
`process_transaction` routes a currency mismatch through
`_process_currency`, which checks the blocked statuses first. -/
theorem currency_mismatch_frozen_counterexample :
    wFrozen.status = AccountStatus.FROZEN ∧
    wDepEUR.currency ≠ wFrozen.currency ∧
    (process_transaction wFrozen wDepEUR).2.2 =
      PyRet.triple false "Account is frozen" TransactionStatus.FAILED ∧
    (process_transaction wFrozen wDepEUR).2.2 ≠
      PyRet.triple false "Currency mismatch" TransactionStatus.FAILED := by
  refine ⟨rfl, by decide, by decide, by decide⟩

/-- C4 (amended): for every account that is neither FROZEN nor CLOSED and
every transaction whose currency differs from the account's,
`process_transaction` rejects it with message "Currency mismatch" and
status FAILED, before any type dispatch, leaving balance and status
unchanged; on a FROZEN or CLOSED account the blocked-status message wins
instead (see the counterexample). -/
theorem currency_mismatch_rejected (a : BankAccount) (t : Transaction)
    (h1 : a.status ≠ AccountStatus.FROZEN)
    (h2 : a.status ≠ AccountStatus.CLOSED)
    (hc : t.currency ≠ a.currency) :
    (process_transaction a t).2.2 =
      PyRet.triple false "Currency mismatch" TransactionStatus.FAILED ∧
    (process_transaction a t).2.1.status = TransactionStatus.FAILED ∧
    (process_transaction a t).1.balance = a.balance ∧
    (process_transaction a t).1.status = a.status := by
  simp [process_transaction, process_currency,
    process_blocked_account_transaction, BLOCKED_ACCOUNT_STATUSES,
    hc, h1, h2]

/-- Witness for C4 (amended): the ACTIVE USD account `wAcct` rejects the
EUR deposit `wDepEUR` with "Currency mismatch". -/
theorem currency_mismatch_rejected_witness :
    wAcct.status ≠ AccountStatus.FROZEN ∧
    wAcct.status ≠ AccountStatus.CLOSED ∧
    wDepEUR.currency ≠ wAcct.currency ∧
    ((process_transaction wAcct wDepEUR).2.2 =
      PyRet.triple false "Currency mismatch" TransactionStatus.FAILED ∧
    (process_transaction wAcct wDepEUR).2.1.status =
      TransactionStatus.FAILED ∧
    (process_transaction wAcct wDepEUR).1.balance = wAcct.balance ∧
    (process_transaction wAcct wDepEUR).1.status = wAcct.status) :=
  ⟨by decide, by decide, by decide,
    currency_mismatch_rejected wAcct wDepEUR (by decide) (by decide)
      (by decide)⟩

/-- C5 (code bug evidence): on an unblocked account with matching
currency, every path of the FEE handler returns a bare Python bool —
`bareBool true` when the fee is deducted, `bareBool false` on insufficient
funds and on a source-name mismatch — never the declared
`(bool, str, TransactionStatus)` triple. -/
theorem fee_returns_bare_bool :
    (process_transaction wAcct wFee).2.2 = PyRet.bareBool true ∧
    (process_transaction wAcct wFeeBig).2.2 = PyRet.bareBool false ∧
    (process_transaction wAcct wFeeMismatch).2.2 = PyRet.bareBool false := by
  refine ⟨by decide, by decide, by decide⟩

/-- C6: for an ACTIVE account, a FEE transaction with matching currency and
source reference equal to the account name is rejected (account frozen,
transaction FAILED, balance unchanged) when the amount exceeds the
balance, and deducted with status COMPLETED when the amount is at most the
balance. -/
theorem fee_freezes_or_deducts (a : BankAccount) (t : Transaction)
    (hs : a.status = AccountStatus.ACTIVE)
    (hty : t.type = TransactionType.FEE)
    (hc : t.currency = a.currency)
    (hsrc : t.source_account_name = some a.account_name) :
    (a.balance < t.amount →
      (process_transaction a t).1.status = AccountStatus.FROZEN ∧
      (process_transaction a t).2.1.status = TransactionStatus.FAILED ∧
      (process_transaction a t).2.2.accepted = false ∧
      (process_transaction a t).1.balance = a.balance) ∧
    (t.amount ≤ a.balance →
      (process_transaction a t).1.balance = a.balance - t.amount ∧
      (process_transaction a t).2.1.status = TransactionStatus.COMPLETED ∧
      (process_transaction a t).2.2.accepted = true) := by
  constructor <;> intro hbal
  · have hno : ¬ a.balance ≥ t.amount := not_le.mpr hbal
    simp [process_transaction, process_fee,
      process_blocked_account_transaction, BLOCKED_ACCOUNT_STATUSES,
      PyRet.accepted, hs, hty, hc, hsrc, hno]
  · have hyes : a.balance ≥ t.amount := hbal
    simp [process_transaction, process_fee,
      process_blocked_account_transaction, BLOCKED_ACCOUNT_STATUSES,
      PyRet.accepted, hs, hty, hc, hsrc, hyes]

/-- Witness for C6: `wAcct` (ACTIVE, balance 500) with the covered fee
`wFee` (10) and the excessive fee `wFeeBig` (1000). -/
theorem fee_freezes_or_deducts_witness :
    (wAcct.status = AccountStatus.ACTIVE ∧
      wFeeBig.type = TransactionType.FEE ∧
      wFeeBig.currency = wAcct.currency ∧
      wFeeBig.source_account_name = some wAcct.account_name) ∧
    ((wAcct.balance < wFeeBig.amount →
      (process_transaction wAcct wFeeBig).1.status = AccountStatus.FROZEN ∧
      (process_transaction wAcct wFeeBig).2.1.status =
        TransactionStatus.FAILED ∧
      (process_transaction wAcct wFeeBig).2.2.accepted = false ∧
      (process_transaction wAcct wFeeBig).1.balance = wAcct.balance) ∧
    (wFeeBig.amount ≤ wAcct.balance →
      (process_transaction wAcct wFeeBig).1.balance =
        wAcct.balance - wFeeBig.amount ∧
      (process_transaction wAcct wFeeBig).2.1.status =
        TransactionStatus.COMPLETED ∧
      (process_transaction wAcct wFeeBig).2.2.accepted = true)) :=
  ⟨⟨rfl, rfl, rfl, rfl⟩,
    fee_freezes_or_deducts wAcct wFeeBig rfl rfl rfl rfl⟩

/-- C8 (code bug evidence): a TRANSFER_IN with no source reference and a
TRANSFER_OUT with no destination reference both construct successfully:
the "Transfers must have both" check in `Transaction.__post_init__` uses
`and`, so it only fires when both references are missing — which the
earlier per-type checks already rule out. -/
theorem transfer_construction_missing_reference :
    (mkTransaction TransactionType.TRANSFER_IN 100 "USD" none
      (some "savings_00001") none "tin1").isOk = true ∧
    (mkTransaction TransactionType.TRANSFER_OUT 100 "USD"
      (some "checking_00001") none none "tout1").isOk = true := by
  refine ⟨by decide, by decide⟩

/-- C7 counterexample: `wFrozenNeg` is FROZEN with balance −50 and the
matching deposit `wDepUSD` of 100 would bring the balance to 50 ≥ 0, yet
the deposit is rejected FAILED, the balance stays −50 and the status stays
FROZEN (no reset to ACTIVE, no COMPLETED): a FROZEN account never reaches
the balance update of `_process_deposit`. -/
theorem deposit_frozen_counterexample :
    wFrozenNeg.status = AccountStatus.FROZEN ∧
    wDepUSD.currency = wFrozenNeg.currency ∧
    wDepUSD.destination_account_name = some wFrozenNeg.account_name ∧
    0 ≤ wFrozenNeg.balance + wDepUSD.amount ∧
    (process_transaction wFrozenNeg wDepUSD).1.status =
      AccountStatus.FROZEN ∧
    (process_transaction wFrozenNeg wDepUSD).2.1.status =
      TransactionStatus.FAILED ∧
    (process_transaction wFrozenNeg wDepUSD).1.balance =
      wFrozenNeg.balance := by
  refine ⟨rfl, rfl, rfl, by norm_num [wFrozenNeg, wAcct, wDepUSD],
    by decide, by decide, by decide⟩

/-- C7 (amended): during processing of a DEPOSIT or INTEREST transaction
(matching currency, destination equal to the account name, positive
amount) on an account that is neither FROZEN nor CLOSED, the amount is
added to the balance and the transaction completes with COMPLETED, and the
account status is unchanged: the auto-recovery branch of
`_process_deposit` (which tests `balance < 0 and status == FROZEN`, not
"balance ≥ 0") is unreachable because FROZEN accounts are rejected before
the balance update, so no status reset to ACTIVE ever happens. -/
theorem deposit_adds_and_completes (a : BankAccount) (t : Transaction)
    (h1 : a.status ≠ AccountStatus.FROZEN)
    (h2 : a.status ≠ AccountStatus.CLOSED)
    (hty : t.type = TransactionType.DEPOSIT ∨
      t.type = TransactionType.INTEREST)
    (hc : t.currency = a.currency)
    (hdst : t.destination_account_name = some a.account_name)
    (hamt : 0 < t.amount) :
    (process_transaction a t).1.balance = a.balance + t.amount ∧
    (process_transaction a t).1.status = a.status ∧
    (process_transaction a t).2.1.status = TransactionStatus.COMPLETED ∧
    (process_transaction a t).2.2 =
      PyRet.triple true "Deposit successful" TransactionStatus.COMPLETED := by
  have hno : ¬ t.amount ≤ 0 := not_le.mpr hamt
  rcases hty with hty | hty <;>
    simp [process_transaction, process_deposit,
      process_blocked_account_transaction, BLOCKED_ACCOUNT_STATUSES,
      hty, hc, hdst, h1, h2, hno]

/-- Witness for C7 (amended): depositing 100 USD into the ACTIVE account
`wAcct` yields balance 600, unchanged status, COMPLETED. -/
theorem deposit_adds_and_completes_witness :
    (wAcct.status ≠ AccountStatus.FROZEN ∧
      wAcct.status ≠ AccountStatus.CLOSED ∧
      (wDepUSD.type = TransactionType.DEPOSIT ∨
        wDepUSD.type = TransactionType.INTEREST) ∧
      wDepUSD.currency = wAcct.currency ∧
      wDepUSD.destination_account_name = some wAcct.account_name ∧
      0 < wDepUSD.amount) ∧
    ((process_transaction wAcct wDepUSD).1.balance =
        wAcct.balance + wDepUSD.amount ∧
      (process_transaction wAcct wDepUSD).1.status = wAcct.status ∧
      (process_transaction wAcct wDepUSD).2.1.status =
        TransactionStatus.COMPLETED ∧
      (process_transaction wAcct wDepUSD).2.2 =
        PyRet.triple true "Deposit successful" TransactionStatus.COMPLETED) :=
  ⟨⟨by decide, by decide, Or.inl rfl, rfl, rfl, by decide⟩,
    deposit_adds_and_completes wAcct wDepUSD (by decide) (by decide)
      (Or.inl rfl) rfl rfl (by decide)⟩

/-- C2: a transaction whose id is fresh for the account appears exactly
once in the history after `process_transaction`, and every history entry
carrying that id has a terminal status (COMPLETED or FAILED, never
PENDING). -/
theorem process_appends_exactly_once_terminal (a : BankAccount)
    (t : Transaction)
    (hfresh : ∀ u ∈ a.transaction_history,
      u.transaction_id ≠ t.transaction_id) :
    ((process_transaction a t).1.transaction_history.filter
      (fun u => u.transaction_id == t.transaction_id)).length = 1 ∧
    (∀ u ∈ (process_transaction a t).1.transaction_history,
      u.transaction_id = t.transaction_id →
        u.status = TransactionStatus.COMPLETED ∨
        u.status = TransactionStatus.FAILED) := by
  have hh := process_transaction_history_eq a t
  have htx := process_transaction_txn_eq a t
  have hterm := process_transaction_status_terminal a t
  have hid : (process_transaction a t).2.1.transaction_id =
      t.transaction_id := by
    rw [htx]
  constructor
  · rw [hh, List.filter_append]
    have h0 : a.transaction_history.filter
        (fun u => u.transaction_id == t.transaction_id) = [] := by
      rw [List.filter_eq_nil_iff]
      intro u hu
      simpa using hfresh u hu
    simp [h0, hid]
  · intro u hu hid'
    rw [hh] at hu
    rcases List.mem_append.mp hu with hu | hu
    · exact absurd hid' (hfresh u hu)
    · rw [List.mem_singleton] at hu
      subst hu
      exact hterm

/-- Witness for C2: processing the fresh deposit `wDepUSD` against `wAcct`
(whose history is empty). -/
theorem process_appends_exactly_once_terminal_witness :
    (∀ u ∈ wAcct.transaction_history,
      u.transaction_id ≠ wDepUSD.transaction_id) ∧
    (((process_transaction wAcct wDepUSD).1.transaction_history.filter
      (fun u => u.transaction_id == wDepUSD.transaction_id)).length = 1 ∧
    (∀ u ∈ (process_transaction wAcct wDepUSD).1.transaction_history,
      u.transaction_id = wDepUSD.transaction_id →
        u.status = TransactionStatus.COMPLETED ∨
        u.status = TransactionStatus.FAILED)) :=
  ⟨by simp [wAcct], process_appends_exactly_once_terminal wAcct wDepUSD
    (by simp [wAcct])⟩

/-- C10: a PENDING account is not blocked, so `process_transaction`
behaves exactly as on the same account with status ACTIVE: identical
returned value and finalized transaction, identical balance and history;
the resulting status is FROZEN exactly when the ACTIVE run's is (the FEE
freeze), and otherwise remains PENDING. -/
theorem pending_account_behaves_like_active (a : BankAccount)
    (t : Transaction) (h : a.status = AccountStatus.PENDING) :
    (process_transaction a t).2 =
      (process_transaction { a with status := AccountStatus.ACTIVE } t).2 ∧
    (process_transaction a t).1.balance =
      (process_transaction { a with status := AccountStatus.ACTIVE } t).1.balance ∧
    (process_transaction a t).1.transaction_history =
      (process_transaction { a with status := AccountStatus.ACTIVE } t).1.transaction_history ∧
    ((process_transaction { a with status := AccountStatus.ACTIVE } t).1.status =
        AccountStatus.FROZEN →
      (process_transaction a t).1.status = AccountStatus.FROZEN) ∧
    ((process_transaction { a with status := AccountStatus.ACTIVE } t).1.status ≠
        AccountStatus.FROZEN →
      (process_transaction a t).1.status = AccountStatus.PENDING) := by
  cases htype : t.type <;> by_cases hc : t.currency = a.currency <;>
    simp [process_transaction, process_currency, process_deposit,
      process_withdrawl, process_transfer_in, process_transfer_out,
      process_fee, process_blocked_account_transaction,
      BLOCKED_ACCOUNT_STATUSES, htype, hc, h] <;>
    split_ifs <;> simp_all

/-- Witness for C10: the PENDING account `wPending` accepts the deposit
`wDepUSD` exactly as the ACTIVE variant does. -/
theorem pending_account_behaves_like_active_witness :
    wPending.status = AccountStatus.PENDING ∧
    ((process_transaction wPending wDepUSD).2 =
      (process_transaction { wPending with status := AccountStatus.ACTIVE }
        wDepUSD).2 ∧
    (process_transaction wPending wDepUSD).1.balance =
      (process_transaction { wPending with status := AccountStatus.ACTIVE }
        wDepUSD).1.balance ∧
    (process_transaction wPending wDepUSD).1.transaction_history =
      (process_transaction { wPending with status := AccountStatus.ACTIVE }
        wDepUSD).1.transaction_history ∧
    ((process_transaction { wPending with status := AccountStatus.ACTIVE }
        wDepUSD).1.status = AccountStatus.FROZEN →
      (process_transaction wPending wDepUSD).1.status =
        AccountStatus.FROZEN) ∧
    ((process_transaction { wPending with status := AccountStatus.ACTIVE }
        wDepUSD).1.status ≠ AccountStatus.FROZEN →
      (process_transaction wPending wDepUSD).1.status =
        AccountStatus.PENDING)) :=
  ⟨rfl, pending_account_behaves_like_active wPending wDepUSD rfl⟩

lemma creditSum_append (l₁ l₂ : List Transaction) :
    creditSum (l₁ ++ l₂) = creditSum l₁ + creditSum l₂ := by
  simp [creditSum]

lemma debitSum_append (l₁ l₂ : List Transaction) :
    debitSum (l₁ ++ l₂) = debitSum l₁ + debitSum l₂ := by
  simp [debitSum]

set_option maxHeartbeats 1600000 in
/-- One `process_transaction` call changes the balance by exactly the
credit contribution minus the debit contribution of the transaction it
appends to the history. -/
lemma process_transaction_balance_delta (a : BankAccount) (t : Transaction) :
    (process_transaction a t).1.balance =
      a.balance + creditAmount (process_transaction a t).2.1
        - debitAmount (process_transaction a t).2.1 := by
  obtain ⟨ty, amt, cur, src, dst, desc, tid, st⟩ := t
  cases ty <;> by_cases hc : cur = a.currency <;>
    simp only [process_transaction, process_currency, process_deposit,
      process_withdrawl, process_transfer_in, process_transfer_out,
      process_fee, process_blocked_account_transaction, hc,
      ne_eq, not_true_eq_false, not_false_eq_true, if_true, if_false,
      ite_true, ite_false] <;>
    split_ifs <;>
    simp_all [creditAmount, debitAmount, BLOCKED_ACCOUNT_STATUSES]

/-- `process_transaction` preserves the accounting invariant. -/
lemma process_transaction_preserves_invariant (a : BankAccount)
    (t : Transaction) (h : balanceInvariant a) :
    balanceInvariant (process_transaction a t).1 := by
  unfold balanceInvariant at h ⊢
  rw [process_transaction_history_eq, creditSum_append, debitSum_append,
    process_transaction_balance_delta, h]
  simp [creditSum, debitSum]
  ring

/-- Processing any sequence of transactions preserves the accounting
invariant. -/
lemma processAll_preserves_invariant (a : BankAccount)
    (ts : List Transaction) (h : balanceInvariant a) :
    balanceInvariant (processAll a ts) := by
  induction ts generalizing a with
  | nil => simpa [processAll] using h
  | cons t ts ih =>
      simpa [processAll] using
        ih _ (process_transaction_preserves_invariant a t h)

/-- An account produced by the constructor satisfies the accounting
invariant (the initial deposit, when positive, is itself processed as a
DEPOSIT transaction). -/
lemma mkBankAccount_invariant (ty : AccountType)
    (currency account_owner : String) (initial_deposit : ℚ)
    (account_id : String) (created_at : ℚ) (init_txn_id : String)
    (a : BankAccount)
    (hmk : mkBankAccount ty currency account_owner initial_deposit
      account_id created_at init_txn_id = Except.ok a) :
    balanceInvariant a := by
  unfold mkBankAccount at hmk
  by_cases h1 : account_owner = "" <;> simp [h1] at hmk
  by_cases h2 : initial_deposit < 0 <;> simp [h2] at hmk
  by_cases h3 : initial_deposit > 0 <;> simp [h3] at hmk
  · subst hmk
    exact process_transaction_preserves_invariant _ _
      (by simp [balanceInvariant, creditSum, debitSum])
  · subst hmk
    simp [balanceInvariant, creditSum, debitSum]

/-- C1: for every constructed `BankAccount` and every sequence of
`process_transaction` calls (including the initial-deposit transaction
processed at construction), the balance equals the sum of amounts of
COMPLETED credit-type history entries (DEPOSIT, TRANSFER_IN, INTEREST)
minus the sum of amounts of COMPLETED debit-type history entries
(WITHDRAWAL, TRANSFER_OUT, FEE). -/
theorem balance_is_completed_credits_minus_debits (ty : AccountType)
    (currency account_owner : String) (initial_deposit : ℚ)
    (account_id : String) (created_at : ℚ) (init_txn_id : String)
    (a : BankAccount) (ts : List Transaction)
    (hmk : mkBankAccount ty currency account_owner initial_deposit
      account_id created_at init_txn_id = Except.ok a) :
    (processAll a ts).balance =
      creditSum (processAll a ts).transaction_history -
        debitSum (processAll a ts).transaction_history :=
  processAll_preserves_invariant a ts
    (mkBankAccount_invariant ty currency account_owner initial_deposit
      account_id created_at init_txn_id a hmk)

/-- Witness for C1: a concrete account constructed with a 500 USD initial
deposit, then a further deposit of 100 USD, satisfies the accounting
equality. -/
theorem balance_is_completed_credits_minus_debits_witness :
    mkBankAccount AccountType.CHECKING "USD" "john.doe" 500 "abc123" 0
      "init1" = Except.ok wInitAcct ∧
    (processAll wInitAcct [wDepUSD]).balance =
      creditSum (processAll wInitAcct [wDepUSD]).transaction_history -
        debitSum (processAll wInitAcct [wDepUSD]).transaction_history :=
  ⟨rfl,
    balance_is_completed_credits_minus_debits AccountType.CHECKING "USD"
      "john.doe" 500 "abc123" 0 "init1" wInitAcct [wDepUSD] rfl⟩

/-! ### The compensation behaviour of the transfer orchestrator (C9) -/

lemma mk_out_eq (src dst : BankAccount) (amount : ℚ)
    (currency description outId : String) (hamt : 0 < amount) :
    mkTransaction TransactionType.TRANSFER_OUT amount currency
      (some src.account_name) (some dst.account_name) (some description)
      outId = Except.ok (outTxnOf src dst amount currency description outId) := by
  simp [mkTransaction, outTxnOf, not_le.mpr hamt]

lemma mk_in_eq (src dst : BankAccount) (amount : ℚ)
    (currency description inId : String) (hamt : 0 < amount) :
    mkTransaction TransactionType.TRANSFER_IN amount currency
      (some src.account_name) (some dst.account_name) (some description)
      inId = Except.ok (inTxnOf src dst amount currency description inId) := by
  simp [mkTransaction, inTxnOf, not_le.mpr hamt]

lemma mk_compIn_eq (src : BankAccount) (amount : ℚ)
    (currency description compId : String) (hamt : 0 < amount) :
    mkTransaction TransactionType.TRANSFER_IN amount currency
      (some src.account_name) (some src.account_name)
      (some (compensationNoteIn description)) compId =
      Except.ok (compInTxnOf src amount currency description compId) := by
  simp [mkTransaction, compInTxnOf, not_le.mpr hamt]

set_option linter.unusedVariables false in
/-- C9: whenever the TRANSFER_OUT leg against the source account succeeds
and the TRANSFER_IN leg against the destination account fails, the
orchestrator issues a compensating TRANSFER_IN for the same amount to the
source account, recorded in the source account's history as a new
transaction with the descriptive compensation note, and the original
TRANSFER_OUT transaction remains in that history (not deleted) with a
status that is never REVERSED.  (The hypothesis on the OUT leg is the
claim's; the code in fact compensates whenever the IN leg fails,
regardless of the OUT leg's outcome.) -/
theorem transfer_compensates_failed_in_leg (src dst : BankAccount)
    (amount : ℚ) (currency description outId inId compId : String)
    (hamt : 0 < amount)
    (hOut : (process_transaction src
      (outTxnOf src dst amount currency description outId)).2.2.accepted =
      true)
    (hIn : (process_transaction dst
      (inTxnOf src dst amount currency description inId)).2.2.accepted =
      false) :
    transfer src dst amount currency description outId inId compId =
      Except.ok
        ((process_transaction
            (process_transaction src
              (outTxnOf src dst amount currency description outId)).1
            (compInTxnOf src amount currency description compId)).1,
          (process_transaction dst
            (inTxnOf src dst amount currency description inId)).1,
          TransferOutcome.inLegFailed
            (process_transaction dst
              (inTxnOf src dst amount currency description inId)).2.2.message) ∧
    (process_transaction
        (process_transaction src
          (outTxnOf src dst amount currency description outId)).1
        (compInTxnOf src amount currency description compId)).1.transaction_history =
      src.transaction_history ++
        [(process_transaction src
            (outTxnOf src dst amount currency description outId)).2.1,
          (process_transaction
            (process_transaction src
              (outTxnOf src dst amount currency description outId)).1
            (compInTxnOf src amount currency description compId)).2.1] ∧
    (process_transaction
        (process_transaction src
          (outTxnOf src dst amount currency description outId)).1
        (compInTxnOf src amount currency description compId)).2.1.type =
      TransactionType.TRANSFER_IN ∧
    (process_transaction
        (process_transaction src
          (outTxnOf src dst amount currency description outId)).1
        (compInTxnOf src amount currency description compId)).2.1.amount =
      amount ∧
    (process_transaction
        (process_transaction src
          (outTxnOf src dst amount currency description outId)).1
        (compInTxnOf src amount currency description compId)).2.1.description =
      some (compensationNoteIn description) ∧
    (process_transaction src
        (outTxnOf src dst amount currency description outId)).2.1 ∈
      (process_transaction
        (process_transaction src
          (outTxnOf src dst amount currency description outId)).1
        (compInTxnOf src amount currency description compId)).1.transaction_history ∧
    (process_transaction src
        (outTxnOf src dst amount currency description outId)).2.1.status ≠
      TransactionStatus.REVERSED := by
  have hhist :
      (process_transaction
          (process_transaction src
            (outTxnOf src dst amount currency description outId)).1
          (compInTxnOf src amount currency description compId)).1.transaction_history =
        src.transaction_history ++
          [(process_transaction src
              (outTxnOf src dst amount currency description outId)).2.1,
            (process_transaction
              (process_transaction src
                (outTxnOf src dst amount currency description outId)).1
              (compInTxnOf src amount currency description compId)).2.1] := by
    rw [process_transaction_history_eq
      (process_transaction src
        (outTxnOf src dst amount currency description outId)).1
      (compInTxnOf src amount currency description compId),
      process_transaction_history_eq src
        (outTxnOf src dst amount currency description outId)]
    simp
  refine ⟨?_, hhist, ?_, ?_, ?_, ?_, ?_⟩
  · simp [transfer, mk_out_eq src dst amount currency description outId hamt,
      mk_in_eq src dst amount currency description inId hamt,
      mk_compIn_eq src amount currency description compId hamt,
      Bind.bind, Except.bind, hIn, pure, Except.pure]
  · rw [process_transaction_txn_eq]
    simp [compInTxnOf]
  · rw [process_transaction_txn_eq]
    simp [compInTxnOf]
  · rw [process_transaction_txn_eq]
    simp [compInTxnOf]
  · rw [hhist]
    simp
  · rcases process_transaction_status_terminal src
      (outTxnOf src dst amount currency description outId) with h | h <;>
      simp [h]

/-- Witness for C9: transferring 50 USD from the ACTIVE USD account
`wAcct` (balance 500) to the EUR account `wAcctEUR`: the OUT leg
succeeds, the IN leg fails with a currency mismatch, and the compensating
TRANSFER_IN is recorded on the source account. -/
theorem transfer_compensates_failed_in_leg_witness :
    (0 < (50 : ℚ) ∧
      (process_transaction wAcct
        (outTxnOf wAcct wAcctEUR 50 "USD" "rent" "o1")).2.2.accepted = true ∧
      (process_transaction wAcctEUR
        (inTxnOf wAcct wAcctEUR 50 "USD" "rent" "i1")).2.2.accepted = false) ∧
    (transfer wAcct wAcctEUR 50 "USD" "rent" "o1" "i1" "c1" =
      Except.ok
        ((process_transaction
            (process_transaction wAcct
              (outTxnOf wAcct wAcctEUR 50 "USD" "rent" "o1")).1
            (compInTxnOf wAcct 50 "USD" "rent" "c1")).1,
          (process_transaction wAcctEUR
            (inTxnOf wAcct wAcctEUR 50 "USD" "rent" "i1")).1,
          TransferOutcome.inLegFailed
            (process_transaction wAcctEUR
              (inTxnOf wAcct wAcctEUR 50 "USD" "rent" "i1")).2.2.message) ∧
    (process_transaction
        (process_transaction wAcct
          (outTxnOf wAcct wAcctEUR 50 "USD" "rent" "o1")).1
        (compInTxnOf wAcct 50 "USD" "rent" "c1")).1.transaction_history =
      wAcct.transaction_history ++
        [(process_transaction wAcct
            (outTxnOf wAcct wAcctEUR 50 "USD" "rent" "o1")).2.1,
          (process_transaction
            (process_transaction wAcct
              (outTxnOf wAcct wAcctEUR 50 "USD" "rent" "o1")).1
            (compInTxnOf wAcct 50 "USD" "rent" "c1")).2.1] ∧
    (process_transaction
        (process_transaction wAcct
          (outTxnOf wAcct wAcctEUR 50 "USD" "rent" "o1")).1
        (compInTxnOf wAcct 50 "USD" "rent" "c1")).2.1.type =
      TransactionType.TRANSFER_IN ∧
    (process_transaction
        (process_transaction wAcct
          (outTxnOf wAcct wAcctEUR 50 "USD" "rent" "o1")).1
        (compInTxnOf wAcct 50 "USD" "rent" "c1")).2.1.amount = 50 ∧
    (process_transaction
        (process_transaction wAcct
          (outTxnOf wAcct wAcctEUR 50 "USD" "rent" "o1")).1
        (compInTxnOf wAcct 50 "USD" "rent" "c1")).2.1.description =
      some (compensationNoteIn "rent") ∧
    (process_transaction wAcct
        (outTxnOf wAcct wAcctEUR 50 "USD" "rent" "o1")).2.1 ∈
      (process_transaction
        (process_transaction wAcct
          (outTxnOf wAcct wAcctEUR 50 "USD" "rent" "o1")).1
        (compInTxnOf wAcct 50 "USD" "rent" "c1")).1.transaction_history ∧
    (process_transaction wAcct
        (outTxnOf wAcct wAcctEUR 50 "USD" "rent" "o1")).2.1.status ≠
      TransactionStatus.REVERSED) :=
  ⟨⟨by decide, by decide, by decide⟩,
    transfer_compensates_failed_in_leg wAcct wAcctEUR 50 "USD" "rent" "o1"
      "i1" "c1" (by decide) (by decide) (by decide)⟩

end Bank
